import Mathlib

/-!
Verification development for the voice-transformer streaming pipeline.

The definitions below are a shallow embedding of the Python sources:
`src/transformation/pipeline.py`, `src/transformation/rvc_model.py`,
`src/audio/input.py`, `src/audio/output.py`, `src/audio/processing.py`
and `src/cli/commands.py`.  Audio samples are modelled as integers
(`int16` values), float values as rationals, and the Python
`collections.deque(maxlen = cap)` containers as lists together with an
explicit capacity.
-/

namespace VoiceTransformer

/-- An audio frame: an ordered sequence of signed 16-bit samples,
modelled as integers. -/
abbrev AudioFrame := List Int

/-! ## Bounded queues (`collections.deque` with `maxlen`)

`deque.append x` on a full deque silently evicts the leftmost element;
it never blocks and never fails.  `popleft` removes and returns the
leftmost element. -/

/-- Python `deque(maxlen := cap).append x`: append `x` on the right and,
when the deque is over capacity, drop elements from the left. -/
def dequePush {α : Type} (cap : Nat) (q : List α) (x : α) : List α :=
  (q ++ [x]).drop (q.length + 1 - cap)

/-- Push a whole sequence of elements, one at a time, in order. -/
def dequePushAll {α : Type} (cap : Nat) (q : List α) (xs : List α) : List α :=
  xs.foldl (dequePush cap) q

/-- Non-blocking pop: Python `popleft` guarded by a length check, as in
`TransformationPipeline.get_transformed_audio` — returns `none` and an
unchanged queue when empty. -/
def dequePop {α : Type} (q : List α) : Option α × List α :=
  match q with
  | [] => (none, [])
  | x :: xs => (some x, xs)

/-- Model of `TransformationPipeline.add_audio`: append the frame to the input
queue, a `deque` of capacity 100 (`pipeline.py` line 47). -/
def add_audio (q : List AudioFrame) (x : AudioFrame) : List AudioFrame :=
  dequePush 100 q x

/-- Model of `TransformationPipeline.get_transformed_audio`: pop the leftmost
frame of the output queue if present, else return `none`
(`pipeline.py` lines 117–128). -/
def get_transformed_audio (q : List AudioFrame) :
    Option AudioFrame × List AudioFrame :=
  dequePop q

lemma dequePush_of_lt {α : Type} {cap : Nat} {q : List α} (x : α)
    (h : q.length < cap) : dequePush cap q x = q ++ [x] := by
  have h0 : q.length + 1 - cap = 0 := by omega
  simp [dequePush, h0]

lemma dequePush_of_full {α : Type} {cap : Nat} {q : List α} (x : α)
    (h : q.length = cap) : dequePush cap q x = (q ++ [x]).drop 1 := by
  have h1 : q.length + 1 - cap = 1 := by omega
  simp [dequePush, h1]

lemma drop_one_append_drop {α : Type} (A : List α) (hA : A ≠ []) (xs : List α)
    (n : Nat) : (A.drop 1 ++ xs).drop n = (A ++ xs).drop (n + 1) := by
  cases A with
  | nil => exact absurd rfl hA
  | cons a t => simp

/-- Closed form for a run of pushes: starting from a queue within
capacity, pushing `xs` leaves the suffix of `q ++ xs` that fits. -/
lemma dequePushAll_eq {α : Type} (cap : Nat) :
    ∀ (xs q : List α), q.length ≤ cap →
      dequePushAll cap q xs = (q ++ xs).drop (q.length + xs.length - cap) := by
  intro xs
  induction xs with
  | nil =>
    intro q h
    have h0 : q.length - cap = 0 := by omega
    simp [dequePushAll, h0]
  | cons x xs ih =>
    intro q h
    have hstep : dequePushAll cap q (x :: xs)
        = dequePushAll cap (dequePush cap q x) xs := rfl
    rw [hstep]
    rcases Nat.lt_or_ge q.length cap with hlt | hge
    · rw [dequePush_of_lt x hlt]
      have hlen : (q ++ [x]).length ≤ cap := by simp; omega
      rw [ih (q ++ [x]) hlen]
      have hl : (q ++ [x]).length + xs.length - cap
          = q.length + (x :: xs).length - cap := by simp; omega
      rw [hl]
      have happ : (q ++ [x]) ++ xs = q ++ x :: xs := by simp
      rw [happ]
    · have hq : q.length = cap := by omega
      rw [dequePush_of_full x hq]
      have hlen : ((q ++ [x]).drop 1).length ≤ cap := by simp; omega
      rw [ih _ hlen]
      rw [drop_one_append_drop (q ++ [x]) (by simp) xs _]
      have happ : (q ++ [x]) ++ xs = q ++ x :: xs := by simp
      rw [happ]
      congr 1
      simp
      omega

/-- Pushing any sequence into an empty bounded queue keeps exactly the
most recent `cap` elements, in order. -/
lemma dequePushAll_nil {α : Type} (cap : Nat) (xs : List α) :
    dequePushAll cap [] xs = xs.drop (xs.length - cap) := by
  have h := dequePushAll_eq cap xs [] (by simp)
  simpa using h

lemma dequePushAll_nil_length {α : Type} (cap : Nat) (xs : List α) :
    (dequePushAll cap [] xs).length = min xs.length cap := by
  rw [dequePushAll_nil]
  simp
  omega

/-- Claim C1: the bounded audio queues obey the drop-oldest contract:
any sequence of pushes retains exactly the most recent `N` frames in
FIFO order (`add_audio` is a total function, hence never blocks or
fails); popping an empty queue returns `none` immediately; and with
capacity 3, pushing `[1,2,3,4]` leaves `[2,3,4]`, with four successive
pops returning `2`, `3`, `4`, `none`. -/
theorem C1_bounded_queue_drop_oldest :
    (∀ xs : List AudioFrame,
        List.foldl add_audio [] xs = xs.drop (xs.length - 100)) ∧
    (∀ (N : Nat) (xs : List Int),
        dequePushAll N [] xs = xs.drop (xs.length - N) ∧
        (dequePushAll N [] xs).length = min xs.length N) ∧
    get_transformed_audio [] = (none, []) ∧
    dequePushAll 3 ([] : List Int) [1, 2, 3, 4] = [2, 3, 4] ∧
    dequePop ([2, 3, 4] : List Int) = (some 2, [3, 4]) ∧
    dequePop ([3, 4] : List Int) = (some 3, [4]) ∧
    dequePop ([4] : List Int) = (some 4, []) ∧
    dequePop ([] : List Int) = (none, []) := by
  refine ⟨?_, ?_, rfl, by decide, rfl, rfl, rfl, rfl⟩
  · intro xs
    have h : List.foldl add_audio ([] : List AudioFrame) xs
        = dequePushAll 100 [] xs := rfl
    rw [h, dequePushAll_nil]
  · intro N xs
    exact ⟨dequePushAll_nil N xs, dequePushAll_nil_length N xs⟩

/-! ## Transformation stage work loop (`pipeline.py` lines 140–190)

One iteration of `TransformationPipeline._processing_loop` pops a frame
from the input queue and, if one is present, runs the conversion step
inside `try`/`except Exception`; on success the transformed frame is
appended to the output queue, on an exception the error is logged and
the loop moves on — nothing is appended to the output queue.  A raised
exception is modelled as `Except.error` from the conversion step. -/

structure LoopState where
  inputQueue : List AudioFrame
  outputQueue : List AudioFrame
  errorLog : List String
  deriving DecidableEq

/-- One iteration of the work loop body (`pipeline.py` lines 140–190),
parameterised by the conversion step (which may raise). -/
def processOne (convert : AudioFrame → Except String AudioFrame)
    (s : LoopState) : LoopState :=
  match s.inputQueue with
  | [] => s
  | f :: rest =>
    match convert f with
    | Except.ok t =>
        { s with inputQueue := rest
                 outputQueue := dequePush 100 s.outputQueue t }
    | Except.error e =>
        { s with inputQueue := rest
                 errorLog := s.errorLog ++ [e] }

/-- Model of `RVCModel.convert` (`rvc_model.py` lines 108–171): when the model is
not loaded and loading fails, the input features are returned unchanged;
otherwise the body runs inside `try`/`except Exception` and returns the
input features unchanged whenever the inner conversion raises — the
engine itself fails open. -/
def RVCModel_convert {F : Type} (loadOk : Bool)
    (inner : F → Except String F) (features : F) : F :=
  if loadOk then
    match inner features with
    | Except.ok t => t
    | Except.error _ => features
  else features

/-- Claim C2 counterexample: with a conversion step that raises, the
work loop pops frame `[1]` from the input queue but pushes nothing to
the output queue — the original frame is not forwarded, contrary to the
claim; the error is only logged. -/
theorem C2_counterexample :
    (processOne (fun _ => Except.error "boom")
        ⟨[[1]], [], []⟩).inputQueue = [] ∧
    (processOne (fun _ => Except.error "boom")
        ⟨[[1]], [], []⟩).errorLog = ["boom"] ∧
    ¬ ([1] ∈ (processOne (fun _ => Except.error "boom")
        ⟨[[1]], [], []⟩).outputQueue) := by
  refine ⟨rfl, rfl, by decide⟩

/-- Claim C2 (amended): when the conversion step raises, the work loop
logs the error and drops the popped frame — the output queue is left
unchanged, nothing (in particular not the original frame) is pushed to
it; fail-open forwarding lives one level lower, in `RVCModel.convert`,
which returns its input features unchanged when its inner conversion
raises. -/
theorem C2_conversion_error_drops_frame
    (convert : AudioFrame → Except String AudioFrame)
    (f : AudioFrame) (rest out : List AudioFrame) (log : List String)
    (e : String) (h : convert f = Except.error e)
    (F : Type) (inner : F → Except String F) (feats : F) (e' : String)
    (h' : inner feats = Except.error e') :
    processOne convert ⟨f :: rest, out, log⟩ = ⟨rest, out, log ++ [e]⟩ ∧
    RVCModel_convert true inner feats = feats := by
  constructor
  · simp [processOne, h]
  · simp [RVCModel_convert, h']

/-- Witness for C2: the amended theorem applied at a concrete failing
conversion. -/
theorem C2_conversion_error_drops_frame_witness :
    processOne (fun _ => Except.error "err") ⟨[[5]], [[7]], []⟩
      = ⟨[], [[7]], ["err"]⟩ ∧
    RVCModel_convert true (fun _ => Except.error "fail") ([3] : AudioFrame)
      = [3] :=
  C2_conversion_error_drops_frame (fun _ => Except.error "err")
    [5] [] [[7]] [] "err" rfl
    AudioFrame (fun _ => Except.error "fail") [3] "fail" rfl

/-! ## Playback callback (`output.py` lines 50–80) -/

/-- Model of `AudioOutput.callback`: pop a frame from the data queue; pad with
trailing zeros when shorter than `frame_count`, truncate when longer;
when the queue is empty output `frame_count` zero samples.  Returns the
emitted buffer and the remaining queue. -/
def callback (queue : List AudioFrame) (frame_count : Nat) :
    AudioFrame × List AudioFrame :=
  match queue with
  | [] => (List.replicate frame_count 0, [])
  | f :: rest =>
    if f.length < frame_count then
      (f ++ List.replicate (frame_count - f.length) 0, rest)
    else if frame_count < f.length then
      (f.take frame_count, rest)
    else (f, rest)

/-- Claim C3: every playback callback returns a buffer of exactly
`frame_count` samples: a shorter frame is zero-padded, a longer frame is
truncated, and an empty queue yields `frame_count` zero samples. -/
theorem C3_callback_exact_length :
    (∀ (queue : List AudioFrame) (frame_count : Nat),
        (callback queue frame_count).1.length = frame_count) ∧
    (∀ frame_count : Nat,
        (callback [] frame_count).1 = List.replicate frame_count 0) ∧
    (∀ (f : AudioFrame) (rest : List AudioFrame) (frame_count : Nat),
        (callback (f :: rest) frame_count).1 =
          if frame_count ≤ f.length then f.take frame_count
          else f ++ List.replicate (frame_count - f.length) 0) := by
  refine ⟨?_, ?_, ?_⟩
  · intro queue frame_count
    match queue with
    | [] => simp [callback]
    | f :: rest =>
      by_cases h1 : f.length < frame_count
      · simp [callback, h1]
        omega
      · by_cases h2 : frame_count < f.length
        · simp [callback, h1, h2]
          omega
        · simp [callback, h1, h2]
          omega
  · intro frame_count
    simp [callback]
  · intro f rest frame_count
    by_cases h1 : f.length < frame_count
    · have h3 : ¬ frame_count ≤ f.length := by omega
      simp [callback, h1, h3]
    · by_cases h2 : frame_count < f.length
      · have h3 : frame_count ≤ f.length := by omega
        simp [callback, h1, h2, h3]
      · have he : f.length = frame_count := by omega
        have h3 : frame_count ≤ f.length := by omega
        simp [callback, h1, h2, h3, ← he]

/-! ## Transformation parameters (`pipeline.py` lines 261–284) -/

structure TransformParams where
  pitch_shift : ℚ
  formant_shift : ℚ
  intensity : ℚ
  preserve_tones : Bool
  deriving DecidableEq

/-- Model of `TransformationPipeline.update_parameters`: each field
passed as a non-`None` value is assigned; fields passed as `None` are
left unchanged.  No range validation is performed here. -/
def update_parameters (p : TransformParams)
    (pitch_shift formant_shift intensity : Option ℚ)
    (preserve_tones : Option Bool) : TransformParams :=
  { pitch_shift :=
      match pitch_shift with
      | some v => v
      | none => p.pitch_shift
    formant_shift :=
      match formant_shift with
      | some v => v
      | none => p.formant_shift
    intensity :=
      match intensity with
      | some v => v
      | none => p.intensity
    preserve_tones :=
      match preserve_tones with
      | some v => v
      | none => p.preserve_tones }

/-- Claim C8: `update_parameters` applies on a per-field basis — each
of the four fields is set exactly when a value is supplied for it and
is left unchanged when `none` is passed; the stage performs no range
validation, so even the out-of-range value 99 is stored verbatim. -/
theorem C8_update_parameters_per_field (p : TransformParams)
    (ps fs it : Option ℚ) (pt : Option Bool) :
    (update_parameters p ps fs it pt).pitch_shift = ps.getD p.pitch_shift ∧
    (update_parameters p ps fs it pt).formant_shift = fs.getD p.formant_shift ∧
    (update_parameters p ps fs it pt).intensity = it.getD p.intensity ∧
    (update_parameters p ps fs it pt).preserve_tones
      = pt.getD p.preserve_tones ∧
    update_parameters p (some (99 : ℚ)) none none none
      = { p with pitch_shift := 99 } := by
  refine ⟨?_, ?_, ?_, ?_, rfl⟩ <;>
    cases ps <;> cases fs <;> cases it <;> cases pt <;>
      simp [update_parameters]

/-! ## Lifecycle state (`commands.py`, `pipeline.py`)

The handler owns the two device streams, the pipeline and its own
`active`/`paused` flags.  Device `start`/`stop` are modelled by the
stream-running booleans; the pipeline worker thread by the pipeline's
`active` flag.  Display output is returned as a list of messages instead
of being stored, so a "no-op that reports" leaves the state untouched. -/

/-- Mutable state of `TransformationPipeline` relevant to the lifecycle:
live parameters, whether the worker thread runs, the two bounded frame
queues and the rolling latency window (`processing_times`). -/
structure PipelineState where
  params : TransformParams
  active : Bool
  inputQueue : List AudioFrame
  outputQueue : List AudioFrame
  processing_times : List ℚ
  deriving DecidableEq

/-- Model of `TransformationPipeline.start` (`pipeline.py` lines 57–74):
a no-op when already active, otherwise starts the worker thread. -/
def pipelineStart (p : PipelineState) : PipelineState :=
  if p.active then p else { p with active := true }

/-- Model of `TransformationPipeline.stop` (`pipeline.py` lines 76–92):
a no-op when not active, otherwise signals and joins the worker thread;
the queues and the latency window are not cleared. -/
def pipelineStop (p : PipelineState) : PipelineState :=
  if p.active then { p with active := false } else p

/-- Mutable state of `CommandHandler` (`commands.py`): lifecycle flags,
the two device-stream states and the owned pipeline. -/
structure HandlerState where
  active : Bool
  paused : Bool
  inputActive : Bool
  outputActive : Bool
  pipeline : PipelineState
  deriving DecidableEq

/-- Model of `CommandHandler._stop_transformation` (`commands.py` lines
144–175): when inactive, report and change nothing; otherwise stop the
relay thread, both device streams and the pipeline. -/
def stopTransformation (h : HandlerState) : HandlerState × List String :=
  if h.active then
    ({ h with inputActive := false
              outputActive := false
              pipeline := pipelineStop h.pipeline
              active := false
              paused := false },
     ["Voice transformation stopped"])
  else
    (h, ["Voice transformation is not running"])

/-- Model of `CommandHandler._pause_transformation` (`commands.py` lines
177–201): valid only while active and not paused; stops the two device
streams but touches neither the pipeline nor its queues. -/
def pauseTransformation (h : HandlerState) : HandlerState × List String :=
  if h.active then
    if h.paused then
      (h, ["Voice transformation is already paused"])
    else
      ({ h with inputActive := false
                outputActive := false
                paused := true },
       ["Voice transformation paused"])
  else
    (h, ["Voice transformation is not running"])

/-- Model of `CommandHandler._start_transformation` (`commands.py` lines
103–142): when active and paused it delegates to
`_resume_transformation`, whose body in that state is inlined here;
when idle it starts the device streams, the pipeline worker and the
relay thread. -/
def startTransformation (h : HandlerState) : HandlerState × List String :=
  if h.active then
    if h.paused then
      ({ h with inputActive := true
                outputActive := true
                paused := false },
       ["Voice transformation resumed"])
    else
      (h, ["Voice transformation is already running"])
  else
    ({ h with inputActive := true
              outputActive := true
              pipeline := pipelineStart h.pipeline
              active := true
              paused := false },
     ["Voice transformation started"])

/-- Model of `CommandHandler._resume_transformation` (`commands.py`
lines 203–227): when inactive it delegates to `_start_transformation`;
when active but not paused it reports and changes nothing; otherwise it
restarts only the two device streams. -/
def resumeTransformation (h : HandlerState) : HandlerState × List String :=
  if h.active then
    if h.paused then
      ({ h with inputActive := true
                outputActive := true
                paused := false },
       ["Voice transformation resumed"])
    else
      (h, ["Voice transformation is not paused"])
  else
    startTransformation h

/-- Claim C4: from a Running state, `pause` stops only the two device
streams — the pipeline (parameters, worker flag, queues and rolling
latency window) is untouched — and `resume` restarts only the streams,
returning the handler to exactly its original state; in particular the
`TransformParameters` are unchanged and the transformation worker is the
same, not restarted. -/
theorem C4_pause_resume_preserves_pipeline (h : HandlerState)
    (hact : h.active = true) (hpau : h.paused = false)
    (hin : h.inputActive = true) (hout : h.outputActive = true) :
    (pauseTransformation h).1.pipeline = h.pipeline ∧
    (pauseTransformation h).1.inputActive = false ∧
    (pauseTransformation h).1.outputActive = false ∧
    (pauseTransformation h).1.active = true ∧
    (resumeTransformation (pauseTransformation h).1).1 = h := by
  obtain ⟨a, p, i, o, pl⟩ := h
  simp only at hact hpau hin hout
  subst hact hpau hin hout
  simp [pauseTransformation, resumeTransformation]

/-- Concrete running handler used by the C4 and C5 witnesses' inputs. -/
def runningHandler : HandlerState :=
  { active := true
    paused := false
    inputActive := true
    outputActive := true
    pipeline :=
      { params :=
          { pitch_shift := 5
            formant_shift := 6 / 5
            intensity := 4 / 5
            preserve_tones := true }
        active := true
        inputQueue := [[1, 2]]
        outputQueue := []
        processing_times := [3 / 2] } }

/-- Witness for C4: pause then resume on a concrete running handler. -/
theorem C4_pause_resume_preserves_pipeline_witness :
    (pauseTransformation runningHandler).1.pipeline
      = runningHandler.pipeline ∧
    (pauseTransformation runningHandler).1.inputActive = false ∧
    (pauseTransformation runningHandler).1.outputActive = false ∧
    (pauseTransformation runningHandler).1.active = true ∧
    (resumeTransformation (pauseTransformation runningHandler).1).1
      = runningHandler :=
  C4_pause_resume_preserves_pipeline runningHandler rfl rfl rfl rfl

/-- Model of `CommandHandler._set_pitch_shift` (`commands.py` lines
340–369) after successful float parsing: values outside `[-12, 12]` are
rejected with an error message, nothing is forwarded; in-range values
are forwarded to `update_parameters` with only `pitch_shift` set. -/
def setPitchShift (h : HandlerState) (v : ℚ) : HandlerState × List String :=
  if v < -12 ∨ 12 < v then
    (h, ["Pitch shift must be between -12.0 and 12.0 semitones"])
  else
    ({ h with pipeline :=
        { h.pipeline with
            params := update_parameters h.pipeline.params
              (some v) none none none } },
     ["Pitch shift set"])

/-- Model of `CommandHandler._set_formant_shift` (`commands.py` lines
371–400) after successful float parsing: values outside `[0.5, 2.0]`
are rejected with an error message, nothing is forwarded; in-range
values are forwarded to `update_parameters` with only `formant_shift`
set. -/
def setFormantShift (h : HandlerState) (v : ℚ) : HandlerState × List String :=
  if v < 1 / 2 ∨ 2 < v then
    (h, ["Formant shift must be between 0.5 and 2.0"])
  else
    ({ h with pipeline :=
        { h.pipeline with
            params := update_parameters h.pipeline.params
              none (some v) none none } },
     ["Formant shift set"])

/-- Claim C5: the control surface validates parameter ranges — an
out-of-range `pitch_shift` (outside `[-12, 12]`) or `formant_shift`
(outside `[0.5, 2]`) leaves the handler state, in particular the prior
parameter values, completely unchanged, while an in-range value updates
exactly that parameter of the pipeline. -/
theorem C5_range_validation (h : HandlerState) (vo vi wo wi : ℚ)
    (hvo : vo < -12 ∨ 12 < vo) (hvi : -12 ≤ vi ∧ vi ≤ 12)
    (hwo : wo < 1 / 2 ∨ 2 < wo) (hwi : 1 / 2 ≤ wi ∧ wi ≤ 2) :
    (setPitchShift h vo).1 = h ∧
    (setPitchShift h vi).1
      = { h with pipeline :=
            { h.pipeline with
                params := { h.pipeline.params with pitch_shift := vi } } } ∧
    (setFormantShift h wo).1 = h ∧
    (setFormantShift h wi).1
      = { h with pipeline :=
            { h.pipeline with
                params := { h.pipeline.params with
                  formant_shift := wi } } } := by
  have hvi' : ¬ (vi < -12 ∨ 12 < vi) := by
    push_neg
    exact ⟨by linarith [hvi.1], by linarith [hvi.2]⟩
  have hwi' : ¬ (wi < 1 / 2 ∨ 2 < wi) := by
    push_neg
    exact ⟨by linarith [hwi.1], by linarith [hwi.2]⟩
  refine ⟨?_, ?_, ?_, ?_⟩
  · simp only [setPitchShift]
    rw [if_pos hvo]
  · simp only [setPitchShift]
    rw [if_neg hvi']
    simp [update_parameters]
  · simp only [setFormantShift]
    rw [if_pos hwo]
  · simp only [setFormantShift]
    rw [if_neg hwi']
    simp [update_parameters]

/-- Witness for C5: pitch 99 rejected, pitch 5 accepted, formant 3
rejected, formant 3/2 accepted, on a concrete handler. -/
theorem C5_range_validation_witness :
    (setPitchShift runningHandler 99).1 = runningHandler ∧
    (setPitchShift runningHandler 5).1
      = { runningHandler with pipeline :=
            { runningHandler.pipeline with
                params := { runningHandler.pipeline.params with
                  pitch_shift := 5 } } } ∧
    (setFormantShift runningHandler 3).1 = runningHandler ∧
    (setFormantShift runningHandler (3 / 2)).1
      = { runningHandler with pipeline :=
            { runningHandler.pipeline with
                params := { runningHandler.pipeline.params with
                  formant_shift := 3 / 2 } } } :=
  C5_range_validation runningHandler 99 5 3 (3 / 2)
    (Or.inr (by norm_num)) (by norm_num)
    (Or.inr (by norm_num)) (by norm_num)

/-- Concrete idle handler: nothing running, default parameters. -/
def idleHandler : HandlerState :=
  { active := false
    paused := false
    inputActive := false
    outputActive := false
    pipeline :=
      { params :=
          { pitch_shift := 5
            formant_shift := 6 / 5
            intensity := 4 / 5
            preserve_tones := true }
        active := false
        inputQueue := []
        outputQueue := []
        processing_times := [] } }

/-- Claim C6 counterexample: `resume` invoked from the idle state — a
state that is not paused, hence an invalid state for `resume` — is not a
no-op: `_resume_transformation` delegates to `_start_transformation`,
which starts the device streams and the pipeline, mutating the state. -/
theorem C6_counterexample :
    (resumeTransformation idleHandler).1.active = true ∧
    idleHandler.active = false ∧
    (resumeTransformation idleHandler).1 ≠ idleHandler := by
  refine ⟨rfl, rfl, ?_⟩
  intro hc
  have h := congrArg HandlerState.active hc
  simp [resumeTransformation, startTransformation, idleHandler] at h

/-- Claim C6 (amended): lifecycle operations from invalid states are
no-ops that only report — `stop` when inactive (hence idempotent from
Idle, twice in succession), `pause` when inactive or already paused,
`resume` when running but not paused, and `TransformationPipeline.stop`
when inactive — except that `resume` from the inactive state delegates
to `start` and does start the transformation. -/
theorem C6_invalid_state_noops (h : HandlerState) (hact : h.active = false)
    (h2 : HandlerState) (hact2 : h2.active = true) (hpau2 : h2.paused = true)
    (h3 : HandlerState) (hact3 : h3.active = true) (hpau3 : h3.paused = false)
    (p : PipelineState) (hp : p.active = false) :
    (stopTransformation h).1 = h ∧
    (stopTransformation (stopTransformation h).1).1 = h ∧
    (pauseTransformation h).1 = h ∧
    (pauseTransformation h2).1 = h2 ∧
    (resumeTransformation h3).1 = h3 ∧
    pipelineStop p = p ∧
    resumeTransformation h = startTransformation h := by
  have hs : (stopTransformation h).1 = h := by
    simp [stopTransformation, hact]
  refine ⟨hs, ?_, ?_, ?_, ?_, ?_, ?_⟩
  · rw [hs]
    exact hs
  · simp [pauseTransformation, hact]
  · simp [pauseTransformation, hact2, hpau2]
  · simp [resumeTransformation, hact3, hpau3]
  · simp [pipelineStop, hp]
  · simp [resumeTransformation, hact]

/-- Concrete paused handler used by the C6 witness. -/
def pausedHandler : HandlerState :=
  { idleHandler with active := true, paused := true }

/-- Witness for C6: the amended theorem applied to concrete idle,
paused and running handler states. -/
theorem C6_invalid_state_noops_witness :
    (stopTransformation idleHandler).1 = idleHandler ∧
    (stopTransformation (stopTransformation idleHandler).1).1
      = idleHandler ∧
    (pauseTransformation idleHandler).1 = idleHandler ∧
    (pauseTransformation pausedHandler).1 = pausedHandler ∧
    (resumeTransformation runningHandler).1 = runningHandler ∧
    pipelineStop idleHandler.pipeline = idleHandler.pipeline ∧
    resumeTransformation idleHandler = startTransformation idleHandler :=
  C6_invalid_state_noops idleHandler rfl
    pausedHandler rfl rfl
    runningHandler rfl rfl
    idleHandler.pipeline rfl

/-! ## Pitch shifting and tone preservation (`rvc_model.py` lines 125–140)

The voiced F0 contour `f0_torch = f0[voiced_flag]` is scaled by the
pitch factor `2 ** (pitch_shift / 12.0)`; the factor is abstracted below
as a rational parameter `k`.  With `preserve_tones` the code computes
`shifted = f0 * k` and then `shifted - mean(shifted) + mean(f0) * k`
elementwise; without it, just `f0 * k`. -/

/-- Arithmetic mean of a list of rationals (`torch.mean`); `0` on the
empty list. -/
def mean (l : List ℚ) : ℚ := l.sum / (l.length : ℚ)

/-- The `preserve_tones = False` branch of `RVCModel.convert`: multiply
every voiced F0 value by the pitch factor `k`. -/
def plainShift (f0 : List ℚ) (k : ℚ) : List ℚ := f0.map (fun x => x * k)

/-- The `preserve_tones = True` branch of `RVCModel.convert` (lines
127–137): for a nonempty voiced contour, scale by `k`, then subtract the
mean of the scaled contour and add `mean f0 * k`; an empty contour is
returned unchanged. -/
def preserveShift (f0 : List ℚ) (k : ℚ) : List ℚ :=
  if 0 < f0.length then
    (f0.map (fun x => x * k)).map
      (fun x => x - mean (f0.map (fun y => y * k)) + mean f0 * k)
  else f0

/-- The F0 update of `RVCModel.convert`, restricted to the voiced
values, with the pitch factor `k = 2^(pitch_shift/12)` as a
parameter. -/
def shiftF0 (preserve : Bool) (f0 : List ℚ) (k : ℚ) : List ℚ :=
  if preserve then preserveShift f0 k else plainShift f0 k

lemma sum_map_mul (l : List ℚ) (k : ℚ) :
    (l.map (fun x => x * k)).sum = l.sum * k := by
  induction l with
  | nil => simp
  | cons a t ih =>
    simp [ih]
    ring

lemma mean_map_mul (l : List ℚ) (k : ℚ) :
    mean (l.map (fun x => x * k)) = mean l * k := by
  simp [mean, sum_map_mul]
  ring

/-- The tone-preservation recentering cancels exactly: subtracting the
scaled mean and adding `mean f0 * k` adds zero to every element. -/
lemma preserveShift_eq_plainShift (f0 : List ℚ) (k : ℚ) :
    preserveShift f0 k = plainShift f0 k := by
  by_cases hlen : 0 < f0.length
  · simp only [preserveShift, hlen, if_pos, mean_map_mul]
    simp [plainShift]
  · have h0 : f0 = [] := by
      cases f0 with
      | nil => rfl
      | cons a t => simp at hlen
    simp [preserveShift, plainShift, h0]

/-- Claim C7 counterexample: on the voiced contour `[100, 200]` with
pitch factor `k = 2` (a 12-semitone shift, `2^(12/12)`), the
`preserve_tones` result is identical to the plain multiplicative shift
— it does not differ from it — and its mean is the shifted mean
`2 * 150 = 300`, not the original mean `150`. -/
theorem C7_counterexample :
    shiftF0 true [100, 200] 2 = shiftF0 false [100, 200] 2 ∧
    shiftF0 true [100, 200] 2 = [200, 400] ∧
    mean (shiftF0 true [100, 200] 2) = 300 ∧
    mean ([100, 200] : List ℚ) = 150 := by
  refine ⟨?_, ?_, ?_, ?_⟩
  · simp [shiftF0, preserveShift_eq_plainShift]
  · simp [shiftF0, preserveShift_eq_plainShift, plainShift]
    norm_num
  · simp [shiftF0, preserveShift_eq_plainShift, plainShift, mean]
    norm_num
  · simp [mean]
    norm_num

/-- Claim C7 (amended): the pitch multiplier applied to every voiced F0
value is the factor `k` (the code's `2^(semitones/12)`), and the
`preserve_tones` branch — scale, subtract the scaled mean, add
`mean f0 * k` — is algebraically identical to the plain multiplicative
shift for every contour and every factor: in exact arithmetic,
`preserve_tones` does not change the result (the recentering restores
the shifted mean, not the original one). -/
theorem C7_preserve_tones_is_plain_shift (f0 : List ℚ) (k : ℚ) :
    shiftF0 true f0 k = shiftF0 false f0 k ∧
    shiftF0 false f0 k = f0.map (fun x => x * k) := by
  constructor
  · simp [shiftF0, preserveShift_eq_plainShift]
  · simp [shiftF0, plainShift]

/-! ## Audio device construction (`input.py`/`output.py` lines 19–48) -/

/-- Configuration recorded by `AudioInput.__init__` and
`AudioOutput.__init__`. -/
structure AudioIOConfig where
  device_index : Option Nat
  sample_rate : Nat
  buffer_size : Nat
  channels : Nat
  deriving DecidableEq

/-- Model of `AudioInput.__init__` (`input.py` lines 19–48): the
requested device index is probed with `get_device_info_by_index`, whose
`IOError` for an absent index is caught — a warning is logged and
`device_index` is reset to `None` (system default).  Construction is a
total function: it always succeeds. -/
def AudioInput_init (devices : List Nat) (device_index : Option Nat)
    (sample_rate buffer_size channels : Nat) : AudioIOConfig :=
  { device_index :=
      match device_index with
      | none => none
      | some i => if i ∈ devices then some i else none
    sample_rate := sample_rate
    buffer_size := buffer_size
    channels := channels }

/-- Model of `AudioOutput.__init__` (`output.py` lines 19–48): same
fallback behaviour as `AudioInput.__init__`. -/
def AudioOutput_init (devices : List Nat) (device_index : Option Nat)
    (sample_rate buffer_size channels : Nat) : AudioIOConfig :=
  { device_index :=
      match device_index with
      | none => none
      | some i => if i ∈ devices then some i else none
    sample_rate := sample_rate
    buffer_size := buffer_size
    channels := channels }

/-- Claim C9: constructing `AudioInput` or `AudioOutput` with a device
index absent from the enumerated device list does not fail — the
constructor falls back to the system default by resetting
`device_index` to `None`, while a present index is kept; the remaining
configuration is stored as given, so construction always succeeds. -/
theorem C9_device_fallback (devices : List Nat) (i j : Nat)
    (sr bs ch : Nat) (hi : ¬ i ∈ devices) (hj : j ∈ devices) :
    (AudioInput_init devices (some i) sr bs ch).device_index = none ∧
    (AudioOutput_init devices (some i) sr bs ch).device_index = none ∧
    (AudioInput_init devices (some j) sr bs ch).device_index = some j ∧
    (AudioOutput_init devices (some j) sr bs ch).device_index = some j ∧
    AudioInput_init devices (some i) sr bs ch
      = { device_index := none, sample_rate := sr,
          buffer_size := bs, channels := ch } ∧
    AudioOutput_init devices (some i) sr bs ch
      = { device_index := none, sample_rate := sr,
          buffer_size := bs, channels := ch } := by
  refine ⟨?_, ?_, ?_, ?_, ?_, ?_⟩ <;>
    simp [AudioInput_init, AudioOutput_init, hi, hj]

/-- Witness for C9: requesting absent device 9999 against the device
list `[0, 1]` falls back to the default; requesting present device 1 is
kept. -/
theorem C9_device_fallback_witness :
    (AudioInput_init [0, 1] (some 9999) 16000 512 1).device_index
      = none ∧
    (AudioOutput_init [0, 1] (some 9999) 16000 512 1).device_index
      = none ∧
    (AudioInput_init [0, 1] (some 1) 16000 512 1).device_index
      = some 1 ∧
    (AudioOutput_init [0, 1] (some 1) 16000 512 1).device_index
      = some 1 ∧
    AudioInput_init [0, 1] (some 9999) 16000 512 1
      = { device_index := none, sample_rate := 16000,
          buffer_size := 512, channels := 1 } ∧
    AudioOutput_init [0, 1] (some 9999) 16000 512 1
      = { device_index := none, sample_rate := 16000,
          buffer_size := 512, channels := 1 } :=
  C9_device_fallback [0, 1] 9999 1 16000 512 1 (by decide) (by decide)

/-! ## Post-processing (`processing.py` lines 58–74) -/

/-- Model of `np.clip(x, -1.0, 1.0)` on a single sample. -/
def clipSample (x : ℚ) : ℚ := min (max x (-1)) 1

/-- Conversion `float → int16` (`astype(np.int16)`): truncation toward
zero. -/
def toInt16 (x : ℚ) : ℤ := if 0 ≤ x then ⌊x⌋ else ⌈x⌉

/-- Model of `AudioProcessor.postprocess`: clip every sample to
`[-1, 1]`, scale by 32767 and convert to `int16`. -/
def postprocess (l : List ℚ) : List ℤ :=
  l.map (fun x => toInt16 (clipSample x * 32767))

lemma clipSample_bounds (x : ℚ) :
    -1 ≤ clipSample x ∧ clipSample x ≤ 1 := by
  constructor
  · simp [clipSample]
  · simp [clipSample]

lemma toInt16_bounds {y : ℚ} (h1 : -32767 ≤ y) (h2 : y ≤ 32767) :
    -32767 ≤ toInt16 y ∧ toInt16 y ≤ 32767 := by
  unfold toInt16
  by_cases hy : 0 ≤ y
  · rw [if_pos hy]
    constructor
    · have : (0 : ℤ) ≤ ⌊y⌋ := Int.le_floor.mpr (by exact_mod_cast hy)
      omega
    · have := Int.floor_le_floor h2
      rwa [show ⌊(32767 : ℚ)⌋ = 32767 by norm_num] at this
  · rw [if_neg hy]
    push_neg at hy
    constructor
    · have := Int.ceil_le_ceil h1
      rwa [show ⌈(-32767 : ℚ)⌉ = -32767 by
        rw [show (-32767 : ℚ) = ((-32767 : ℤ) : ℚ) by norm_num,
          Int.ceil_intCast]] at this
    · have h0 : ⌈y⌉ ≤ (0 : ℤ) := by
        rw [Int.ceil_le]
        exact_mod_cast le_of_lt hy
      omega

/-- Claim C10: `postprocess` is total (a function on all rational
inputs) and overflow-safe: every output sample lies in
`[-32767, 32767]`, inside the `int16` range, so the conversion never
overflows. -/
theorem C10_postprocess_overflow_safe (l : List ℚ) (y : ℤ)
    (hy : y ∈ postprocess l) : -32767 ≤ y ∧ y ≤ 32767 := by
  obtain ⟨x, _, hx⟩ := List.mem_map.mp hy
  obtain ⟨hc1, hc2⟩ := clipSample_bounds x
  have h1 : (-32767 : ℚ) ≤ clipSample x * 32767 := by nlinarith
  have h2 : clipSample x * 32767 ≤ 32767 := by nlinarith
  rw [← hx]
  exact toInt16_bounds h1 h2

/-- Witness for C10: the overflow bound at a concrete over-range
sample, `postprocess [2] = [32767]`. -/
theorem C10_postprocess_overflow_safe_witness :
    32767 ∈ postprocess [2] ∧ -32767 ≤ (32767 : ℤ) ∧ (32767 : ℤ) ≤ 32767 := by
  have hmem : (32767 : ℤ) ∈ postprocess [2] := by
    have : postprocess [2] = [32767] := by
      simp [postprocess, clipSample, toInt16]
    rw [this]
    simp
  exact ⟨hmem, (C10_postprocess_overflow_safe [2] 32767 hmem).1,
    (C10_postprocess_overflow_safe [2] 32767 hmem).2⟩

end VoiceTransformer
